import Mathlib

/-!
# BINAUTOGO — verification of the risk-adjusted signal pipeline

Shallow embedding of the core of the BINAUTOGO trading bot
(`config/settings.py`, `core/deepseek_analyzer.py`, `core/signal_generator.py`,
`core/risk_manager.py`, `core/pump_detector.py`, `utils/advanced_risk.py`)
and proofs about it.

Modelling conventions:
* Python floats are modelled as `ℚ` (IEEE-754 corner values such as NaN and
  infinity are not representable; where a Python expression could divide by
  zero we use Lean's `x / 0 = 0` convention and note it at the definition).
* `datetime` timestamps are modelled as integers (minutes); `datetime.now()`
  becomes an explicit `now` parameter.
* Python dictionaries read with `dict.get(key, default)` are modelled as
  structures with `Option` fields plus `Option.getD`.
* Methods that mutate `self` state (`signal_history`, `daily_pnl`, …) are
  modelled as pure functions taking the state and returning the new state.
-/

/-! ## config/settings.py — `BotConfig` constants used by the core -/

namespace BotConfig

def MIN_CONFIDENCE : ℚ := 65/100

/-- Source name `MIN_RISK_REWARD_RATIO` (= 1.5). -/
def MIN_RISK_REWARD : ℚ := 3/2

def MAX_DRAWDOWN : ℚ := 10/100

def DEFAULT_STOP_LOSS_PERCENT : ℚ := 3/100

def DEFAULT_TAKE_PROFIT_PERCENT : ℚ := 6/100

def MAX_POSITION_SIZE_PERCENT : ℚ := 20/100

def MAX_POSITIONS : ℕ := 5

def RSI_OVERSOLD : ℚ := 30

def RSI_OVERBOUGHT : ℚ := 70

def MIN_BALANCE : ℚ := 100

def MAX_TRADES_PER_HOUR : ℕ := 10

def EMERGENCY_STOP_DRAWDOWN : ℚ := 15/100

end BotConfig

/-! ## Market data

The `market_data` dictionary passed around the pipeline.  `symbol` and
`current_price` are accessed with `market_data['symbol']` /
`market_data['current_price']` (required keys); `price_change_24h` and the
`indicators` sub-dictionary entries `rsi_5m` / `volume_ratio` are read with
`.get` and a default, hence `Option`. -/

structure MarketData where
  symbol : String
  current_price : ℚ
  price_change_24h : Option ℚ := none
  rsi_5m : Option ℚ := none
  volume_ratio : Option ℚ := none
  deriving DecidableEq

/-! ## core/deepseek_analyzer.py — data model -/

/-- Source `MarketAnalysis` dataclass. -/
structure MarketAnalysis where
  symbol : String
  direction : String
  confidence : ℚ
  entry_price : ℚ
  target_price : ℚ
  stop_loss : ℚ
  position_size : ℚ
  reasoning : String
  risk_score : ℤ
  timeframe : String
  timestamp : ℤ
  is_valid : Bool := true
  deriving DecidableEq

/-- A JSON dictionary as far as `_parse_response` reads it.  For every key
read with `data.get`, the outer `Option` is key presence; the inner `Option`
says whether the Python conversion applied to the present value (`float`,
`int`, `.lower()`) succeeds, `none` modelling the conversion raising (which
the source catches with the generic `except Exception`, falling back to the
neutral analysis).  For `direction` the stored `String` is the value after
`.lower()`; `reasoning` and `timeframe` are stored without conversion. -/
structure JsonDict where
  direction : Option (Option String) := none
  confidence : Option (Option ℚ) := none
  entry_price : Option (Option ℚ) := none
  target_price : Option (Option ℚ) := none
  stop_loss : Option (Option ℚ) := none
  position_size : Option (Option ℚ) := none
  reasoning : Option String := none
  risk_score : Option (Option ℤ) := none
  timeframe : Option String := none

namespace DeepSeekAnalyzer

/-- Source `float(data.get(key, default))`: a missing key yields the (always
convertible) default; a present key yields its conversion outcome. -/
def getConv {α : Type} (v : Option (Option α)) (dflt : α) : Option α :=
  v.getD (some dflt)

def defaultReasoning : String := "No reasoning"

/-- Source `_create_neutral_analysis` (deepseek_analyzer.py lines 276-291). -/
def create_neutral_analysis (md : MarketData) (now : ℤ) : MarketAnalysis :=
  { symbol := md.symbol
    direction := "neutral"
    confidence := 1/10
    entry_price := md.current_price
    target_price := md.current_price
    stop_loss := md.current_price * (97/100)
    position_size := 0
    reasoning := defaultReasoning
    risk_score := 10
    timeframe := "1h"
    timestamp := now
    is_valid := false }

/-- Python `str.strip()` (whitespace at both ends). -/
def pyStrip (s : List Char) : List Char :=
  ((s.dropWhile Char.isWhitespace).reverse.dropWhile Char.isWhitespace).reverse

def backquote : Char := Char.ofNat 96

def fenceJson : List Char := [backquote, backquote, backquote, 'j', 's', 'o', 'n']

def fence : List Char := [backquote, backquote, backquote]

def lbrace : Char := Char.ofNat 123

def rbrace : Char := Char.ofNat 125

/-- The markdown-stripping prelude of `_parse_response` (lines 219-226). -/
def stripMarkdown (r0 : List Char) : List Char :=
  let r := pyStrip r0
  let r := if fenceJson.isPrefixOf r then r.drop 7 else r
  let r := if fence.isPrefixOf r then r.drop 3 else r
  let r := if fence.isSuffixOf r then r.take (r.length - 3) else r
  pyStrip r

/-- Python `str.rfind(c)`: index of the last occurrence. -/
def rfindIdx (r : List Char) (c : Char) : Option ℕ :=
  (List.findIdx? (fun x => x == c) r.reverse).map (fun i => r.length - 1 - i)

/-- Lines 229-235: `start_idx = response.find('{')`,
`end_idx = response.rfind('}') + 1`; raise (→ `none`) when either brace is
missing, else slice `response[start_idx:end_idx]`. -/
def extractJson (r : List Char) : Option (List Char) :=
  match List.findIdx? (fun x => x == lbrace) r, rfindIdx r rbrace with
  | some s, some e => some ((r.drop s).take (e + 1 - s))
  | _, _ => none

/-- Lines 239-251: build the `MarketAnalysis` from the decoded dictionary;
`none` when any of the Python conversions raises. -/
def extractFields (md : MarketData) (now : ℤ) (d : JsonDict) :
    Option MarketAnalysis := do
  let dir ← getConv d.direction ("neutral")
  let conf ← getConv d.confidence (1/2)
  let ep ← getConv d.entry_price md.current_price
  let tp ← getConv d.target_price md.current_price
  let sl ← getConv d.stop_loss (md.current_price * (97/100))
  let ps ← getConv d.position_size (1/10)
  let rs ← getConv d.risk_score 5
  some { symbol := md.symbol
         direction := dir
         confidence := conf
         entry_price := ep
         target_price := tp
         stop_loss := sl
         position_size := ps
         reasoning := d.reasoning.getD defaultReasoning
         risk_score := rs
         timeframe := d.timeframe.getD ("1h")
         timestamp := now }

/-- Lines 254-261: clamp out-of-range values to safe defaults. -/
def clampAnalysis (a : MarketAnalysis) : MarketAnalysis :=
  let a := if a.confidence < 0 ∨ a.confidence > 1
    then { a with confidence := 1/2 } else a
  let a := if ¬ (a.direction = "bullish" ∨ a.direction = "bearish" ∨
      a.direction = "neutral")
    then { a with direction := "neutral" } else a
  if a.risk_score < 1 ∨ a.risk_score > 10
    then { a with risk_score := 5 } else a

/-- Source `_parse_response` (lines 215-274).  `jsonLoads` abstracts the external
`json.loads`, `none` standing for `json.JSONDecodeError`; every failure path
(no braces found, decode error, field conversion error) returns the neutral
analysis, as the source's `except` clauses do. -/
def parse_response (jsonLoads : List Char → Option JsonDict)
    (response : List Char) (md : MarketData) (now : ℤ) : MarketAnalysis :=
  match extractJson (stripMarkdown response) with
  | none => create_neutral_analysis md now
  | some js =>
    match jsonLoads js with
    | none => create_neutral_analysis md now
    | some d =>
      match extractFields md now d with
      | none => create_neutral_analysis md now
      | some a => clampAnalysis a

/-- Source `analyze_market` (lines 80-107): `callResult` is the value returned by
`_call_deepseek` (`none` on timeout / HTTP error); when it is `none`, or any
downstream step fails, the neutral analysis is produced. -/
def analyze_market (jsonLoads : List Char → Option JsonDict)
    (callResult : Option (List Char)) (md : MarketData) (now : ℤ) :
    MarketAnalysis :=
  match callResult with
  | none => create_neutral_analysis md now
  | some r => parse_response jsonLoads r md now

end DeepSeekAnalyzer

/-! ## core/signal_generator.py -/

/-- Source `TradingSignal` dataclass. -/
structure TradingSignal where
  symbol : String
  direction : String
  signal_type : String
  strength : ℚ
  price : ℚ
  quantity : ℚ
  stop_loss : ℚ
  take_profit : ℚ
  confidence : ℚ
  analysis : MarketAnalysis
  reasoning : String
  timestamp : ℤ
  is_valid : Bool := true
  leverage : ℚ := 1
  position_mode : String := "one-way"
  deriving DecidableEq

namespace SignalGenerator

open BotConfig

/-- Source `_calculate_stop_loss` (lines 158-172).  Python's
`if suggested_sl and suggested_sl > 0` is equivalent to `suggested_sl > 0`
on numbers (`0.0` is falsy). -/
def calculate_stop_loss (entry_price : ℚ) (signal_type : String)
    (suggested_sl : ℚ) : ℚ :=
  if suggested_sl > 0 then
    if signal_type = "long" then
      min suggested_sl (entry_price * (1 - DEFAULT_STOP_LOSS_PERCENT))
    else
      max suggested_sl (entry_price * (1 + DEFAULT_STOP_LOSS_PERCENT))
  else
    if signal_type = "long" then
      entry_price * (1 - DEFAULT_STOP_LOSS_PERCENT)
    else
      entry_price * (1 + DEFAULT_STOP_LOSS_PERCENT)

/-- Source `_calculate_take_profit` (lines 174-188). -/
def calculate_take_profit (entry_price : ℚ) (signal_type : String)
    (suggested_tp : ℚ) : ℚ :=
  if suggested_tp > 0 then
    if signal_type = "long" then
      max suggested_tp (entry_price * (1 + DEFAULT_TAKE_PROFIT_PERCENT))
    else
      min suggested_tp (entry_price * (1 - DEFAULT_TAKE_PROFIT_PERCENT))
  else
    if signal_type = "long" then
      entry_price * (1 + DEFAULT_TAKE_PROFIT_PERCENT)
    else
      entry_price * (1 - DEFAULT_TAKE_PROFIT_PERCENT)

/-- Source `_calculate_risk_reward` (lines 190-203). -/
def calculate_risk_reward (entry stop_loss take_profit : ℚ)
    (signal_type : String) : ℚ :=
  let risk := if signal_type = "long" then entry - stop_loss
    else stop_loss - entry
  let reward := if signal_type = "long" then take_profit - entry
    else entry - take_profit
  if risk ≤ 0 then 0 else reward / risk

/-- Source `_get_recent_signals` (lines 257-263); timestamps in minutes, `cutoff_time
= now - minutes`. -/
def get_recent_signals (signal_history : List TradingSignal) (symbol : String)
    (minutes : ℤ) (now : ℤ) : List TradingSignal :=
  signal_history.filter
    (fun s => s.symbol == symbol && decide (s.timestamp > now - minutes))

/-- Source `_validate_signal` (lines 205-255): the five-part checklist, all of which
must pass. -/
def validate_signal (signal_history : List TradingSignal) (now : ℤ)
    (s : TradingSignal) (md : MarketData) : Bool :=
  let price_diff := |s.price - md.current_price| / md.current_price
  let check_price := decide (price_diff < 2/100)
  let check_sl := if s.signal_type = "long" then decide (s.stop_loss < s.price)
    else decide (s.stop_loss > s.price)
  let check_tp := if s.signal_type = "long" then decide (s.take_profit > s.price)
    else decide (s.take_profit < s.price)
  let rsi := md.rsi_5m.getD 50
  let check_rsi := if s.signal_type = "long" then decide (rsi < RSI_OVERBOUGHT)
    else decide (rsi > RSI_OVERSOLD)
  let vr := md.volume_ratio.getD 1
  let check_volume := decide (vr > 8/10)
  let recent := get_recent_signals signal_history s.symbol 60 now
  let check_freq := decide (recent.length < MAX_TRADES_PER_HOUR)
  check_price && check_sl && check_tp && check_rsi && check_volume && check_freq

/-- Source `generate_signal` (lines 54-156).  `analysisOpt` is the value returned by
`self.analyzer.analyze_market` (`Optional[MarketAnalysis]`); the mutation of
`self.signal_history` (line 150, executed only when the freshly validated
signal is valid) is modelled by returning the new history alongside the
result. -/
def generate_signal (signal_history : List TradingSignal)
    (analysisOpt : Option MarketAnalysis) (md : MarketData) (now : ℤ) :
    Option TradingSignal × List TradingSignal :=
  match analysisOpt with
  | none => (none, signal_history)
  | some analysis =>
    if ¬ analysis.is_valid then (none, signal_history)
    else if analysis.confidence < MIN_CONFIDENCE then (none, signal_history)
    else if analysis.direction = "neutral" then (none, signal_history)
    else
      let signal_type := if analysis.direction = "bullish" then "long"
        else "short"
      let direction := if signal_type = "long" then "buy" else "sell"
      let stop_loss :=
        calculate_stop_loss md.current_price signal_type analysis.stop_loss
      let take_profit :=
        calculate_take_profit md.current_price signal_type analysis.target_price
      let risk_reward :=
        calculate_risk_reward md.current_price stop_loss take_profit signal_type
      if risk_reward < MIN_RISK_REWARD then (none, signal_history)
      else
        let quantity := analysis.position_size
        let s0 : TradingSignal :=
          { symbol := md.symbol
            direction := direction
            signal_type := signal_type
            strength := analysis.confidence
            price := md.current_price
            quantity := quantity
            stop_loss := stop_loss
            take_profit := take_profit
            confidence := analysis.confidence
            analysis := analysis
            reasoning := analysis.reasoning
            timestamp := now
            leverage := 1 }
        let s := { s0 with is_valid := validate_signal signal_history now s0 md }
        (some s, if s.is_valid then signal_history ++ [s] else signal_history)

end SignalGenerator

/-! ## core/risk_manager.py

`RiskManager` state is `daily_pnl : List ℚ`; the helpers
`_get_portfolio_value`, `_get_free_balance` and `_get_current_positions` are
stubs in the source (returning `10000.0`, `5000.0` and `[]`) and are embedded
as such.  `len(self._get_recent_trades(hours=1))` filters `trade_history` by
wall-clock time; that count is abstracted as the parameter
`recent_trades_count`. -/

/-- An entry of the `_get_current_positions` list (`{'symbol':…, 'value':…}`). -/
structure PositionEntry where
  symbol : String
  value : ℚ
  deriving DecidableEq

namespace RiskManager

open BotConfig

/-- Source `_get_portfolio_value` (stub: `return 10000.0`). -/
def get_portfolio_value : ℚ := 10000

/-- Source `_get_free_balance` (stub: `return 5000.0`). -/
def get_free_balance : ℚ := 5000

/-- Source `_get_current_positions` (stub: `return []`). -/
def get_current_positions : List PositionEntry := []

/-- Source `_get_current_exposure`. -/
def get_current_exposure : ℚ :=
  (get_current_positions.map (fun p => p.value)).sum

/-- Source `_calculate_volatility` (lines 334-341):
`abs(market_data.get('price_change_24h', 2.0)) / 100`. -/
def calculate_volatility (md : MarketData) : ℚ :=
  |md.price_change_24h.getD 2| / 100

/-- Source `_get_performance_multiplier` (lines 343-362). -/
def get_performance_multiplier (daily_pnl : List ℚ) : ℚ :=
  if daily_pnl.length < 10 then 1
  else
    let recent_pnl := daily_pnl.drop (daily_pnl.length - 10)
    let wins := (recent_pnl.filter (fun p => decide (p > 0))).length
    let win_rate := (wins : ℚ) / (recent_pnl.length : ℚ)
    if win_rate > 70/100 then 12/10
    else if win_rate < 30/100 then 6/10
    else 1

/-- Source `pandas.Series.cumsum`. -/
def cumsum (l : List ℚ) : List ℚ :=
  (l.scanl (· + ·) 0).drop 1

/-- Source `expanding().max()` after a first element. -/
def runningMaxAux (m : ℚ) : List ℚ → List ℚ
  | [] => []
  | x :: xs => max m x :: runningMaxAux (max m x) xs

/-- Source `pandas.Series.expanding().max()`. -/
def runningMax : List ℚ → List ℚ
  | [] => []
  | x :: xs => x :: runningMaxAux x xs

/-- Source `_calculate_current_drawdown` (lines 364-373):
`abs(((cumsum - running_max) / running_max.abs()).iloc[-1])`, i.e. the value
at the last index.  When the last running maximum is zero, pandas produces
NaN or ±infinity; here `x / 0 = 0` makes the drawdown `0`, which leaves every
downstream `>=` comparison false exactly as a NaN would. -/
def calculate_current_drawdown (daily_pnl : List ℚ) : ℚ :=
  if daily_pnl.isEmpty then 0
  else
    let c := cumsum daily_pnl
    let m := runningMax c
    let cl := c.getLastD 0
    let ml := m.getLastD 0
    abs ((cl - ml) / abs ml)

/-- Source `_check_portfolio_exposure` (lines 79-111), stage 1 of the Risk Gate. -/
def check_portfolio_exposure (s : TradingSignal) : TradingSignal :=
  let current_exposure := get_current_exposure
  let portfolio_value := get_portfolio_value
  let signal_value := s.quantity * s.price
  let new_exposure := current_exposure + signal_value
  let exposure_ratio :=
    if portfolio_value > 0 then new_exposure / portfolio_value else 0
  if exposure_ratio > 80/100 then
    let max_signal_value := (80/100) * portfolio_value - current_exposure
    if max_signal_value > 0 then { s with quantity := max_signal_value / s.price }
    else { s with is_valid := false }
  else s

/-- Source `_calculate_position_size` (lines 113-172), stage 2 of the Risk Gate:
the quantity is recomputed from scratch (`signal.quantity` is overwritten by
`position_value / signal.price` at line 160, independently of its incoming
value). -/
def calculate_position_size (daily_pnl : List ℚ) (s : TradingSignal)
    (md : MarketData) : TradingSignal :=
  let portfolio_value := get_portfolio_value
  let free_balance := get_free_balance
  let base_position_size := s.analysis.position_size
  let confidence_multiplier := s.confidence ^ 2
  let volatility := calculate_volatility md
  let volatility_adjustment :=
    if volatility > 0 then min 1 ((2/100) / volatility) else 1
  let performance_multiplier := get_performance_multiplier daily_pnl
  let adjusted_size := base_position_size * confidence_multiplier *
    volatility_adjustment * performance_multiplier
  let adjusted_size := max (8/100) (min adjusted_size MAX_POSITION_SIZE_PERCENT)
  let min_free_balance := portfolio_value * (30/100)
  let adjusted_size :=
    if free_balance < min_free_balance
    then adjusted_size * (free_balance / min_free_balance)
    else adjusted_size
  let position_value := portfolio_value * adjusted_size
  { s with quantity := position_value / s.price }

/-- Source `_check_drawdown_limit` (lines 174-211), stage 3 of the Risk Gate. -/
def check_drawdown_limit (daily_pnl : List ℚ) (s : TradingSignal) :
    TradingSignal :=
  let current_drawdown := calculate_current_drawdown daily_pnl
  if current_drawdown ≥ EMERGENCY_STOP_DRAWDOWN then { s with is_valid := false }
  else
    let s := if current_drawdown ≥ MAX_DRAWDOWN * (80/100)
      then { s with quantity := s.quantity * (1/2) } else s
    if current_drawdown ≥ MAX_DRAWDOWN then { s with is_valid := false } else s

def btcStr : String := "BTC"

/-- Source `_check_correlation_limits` (lines 213-245), stage 4 of the Risk Gate
(`'BTC' in symbol` is substring membership). -/
def check_correlation_limits (s : TradingSignal) : TradingSignal :=
  let current_positions := get_current_positions
  if current_positions.isEmpty then s
  else
    let btc_exposure :=
      ((current_positions.filter
        (fun p => decide (btcStr.toList <:+: p.symbol.toList))).map
          (fun p => p.value)).sum
    let portfolio_value := get_portfolio_value
    let btc_ratio :=
      if portfolio_value > 0 then btc_exposure / portfolio_value else 0
    if decide (btcStr.toList <:+: s.symbol.toList) && decide (btc_ratio > 40/100)
    then { s with quantity := s.quantity * ((40/100) / btc_ratio) }
    else s

/-- Source `_adjust_for_volatility` (lines 247-269), stage 5 of the Risk Gate. -/
def adjust_for_volatility (s : TradingSignal) (md : MarketData) :
    TradingSignal :=
  let daily_change := |md.price_change_24h.getD 0| / 100
  if daily_change > 5/100
  then { s with quantity := s.quantity * ((5/100) / daily_change) }
  else s

/-- Source `_check_sufficient_balance` (lines 271-300), stage 6 of the Risk Gate. -/
def check_sufficient_balance (s : TradingSignal) : TradingSignal :=
  let free_balance := get_free_balance
  let position_value := s.quantity * s.price
  if free_balance < MIN_BALANCE then { s with is_valid := false }
  else if position_value > free_balance
  then { s with quantity := free_balance / s.price }
  else s

/-- Source `_check_trade_frequency` (lines 302-332), stage 7 of the Risk Gate;
`recent_trades_count` abstracts `len(self._get_recent_trades(hours=1))`. -/
def check_trade_frequency (recent_trades_count : ℕ) (s : TradingSignal) :
    TradingSignal :=
  let current_positions := get_current_positions
  if current_positions.length ≥ MAX_POSITIONS then { s with is_valid := false }
  else if recent_trades_count ≥ MAX_TRADES_PER_HOUR
  then { s with is_valid := false }
  else s

/-- Source `validate_signal` (lines 31-77): the seven Risk Gate stages in order,
with early returns after stages 1 and 3 when the signal has become invalid. -/
def validate_signal (daily_pnl : List ℚ) (recent_trades_count : ℕ)
    (s : TradingSignal) (md : MarketData) : TradingSignal :=
  if ¬ s.is_valid then s
  else
    let s1 := check_portfolio_exposure s
    if ¬ s1.is_valid then s1
    else
      let s2 := calculate_position_size daily_pnl s1 md
      let s3 := check_drawdown_limit daily_pnl s2
      if ¬ s3.is_valid then s3
      else
        let s4 := check_correlation_limits s3
        let s5 := adjust_for_volatility s4 md
        let s6 := check_sufficient_balance s5
        check_trade_frequency recent_trades_count s6

end RiskManager

/-! ## utils/advanced_risk.py — `AdvancedRiskManager.calculate_kelly_position_size` -/

/-- The `performance_metrics` dictionary; every key is read with `.get` and a
default (`total_trades` → 0, `win_rate` → 0.5, `avg_win` → 0, `avg_loss` → 0). -/
structure PerfMetrics where
  total_trades : Option ℕ := none
  win_rate : Option ℚ := none
  avg_win : Option ℚ := none
  avg_loss : Option ℚ := none
  deriving DecidableEq

namespace AdvancedRiskManager

/-- Instance attribute `kelly_fraction = 0.25`. -/
def kelly_fraction : ℚ := 25/100

/-- Instance attribute `min_position_size = 0.05`. -/
def min_position_size : ℚ := 5/100

/-- Instance attribute `max_position_size = 0.25`. -/
def max_position_size : ℚ := 25/100

/-- Lines 62-70: `odds = avg_win / avg_loss` when losses were recorded,
else the default `2.0` (`avg_loss` is taken in absolute value, line 64). -/
def kelly_odds (m : PerfMetrics) : ℚ :=
  let avg_loss := |m.avg_loss.getD 0|
  if avg_loss > 0 then (m.avg_win.getD 0) / avg_loss else 2

/-- Lines 72-76: raw Kelly fraction `(b·p − (1−p)) / b`. -/
def kelly_percentage (m : PerfMetrics) : ℚ :=
  let odds := kelly_odds m
  let p := m.win_rate.getD (1/2)
  (odds * p - (1 - p)) / odds

/-- Lines 78-83: the fractional Kelly after the conservative multiplier and
the `[min_position_size, max_position_size]` clamp. -/
def fractional_kelly (m : PerfMetrics) : ℚ :=
  max min_position_size
    (min (kelly_percentage m * kelly_fraction) max_position_size)

/-- Source `calculate_kelly_position_size` (lines 37-117).  The `metrics` argument is
`Option` because Python tests `if not performance_metrics` (an empty/missing
dictionary falls back to the incoming quantity); the portfolio value is the
source's fallback constant 10000, the `OrderExecutor` lookup being an external
call wrapped in `try/except: pass`. -/
def calculate_kelly_position_size (s : TradingSignal)
    (metrics : Option PerfMetrics) : ℚ :=
  match metrics with
  | none => s.quantity
  | some m =>
    if m.total_trades.getD 0 < 10 then s.quantity
    else
      let confidence_adjusted := fractional_kelly m * s.confidence
      let portfolio_value : ℚ := 10000
      let position_value := portfolio_value * confidence_adjusted
      position_value / s.price

end AdvancedRiskManager

/-! ## core/pump_detector.py -/

/-- Source `PumpSignal` dataclass. -/
structure PumpSignal where
  symbol : String
  trigger_price : ℚ
  current_price : ℚ
  price_change_percent : ℚ
  volume_change : ℚ
  order_book_imbalance : ℚ
  confidence : ℚ
  timestamp : ℤ
  is_valid : Bool := true
  deriving DecidableEq

/-- One entry of `self.price_history[symbol]` (the `timestamp` key is used
only for the rolling-window pruning, which is abstracted away: `detect_pump`
below receives the already-pruned, already-updated history). -/
structure PricePoint where
  price : ℚ
  volume : ℚ
  deriving DecidableEq

namespace PumpDetector

/-- Detector parameter `price_threshold = 0.03`. -/
def price_threshold : ℚ := 3/100

/-- Detector parameter `volume_multiplier = 3.0`. -/
def volume_multiplier : ℚ := 3

/-- Detector parameter `orderbook_threshold = 0.65`. -/
def orderbook_threshold : ℚ := 65/100

/-- Source `_calculate_price_change` (lines 195-213): change of the last price
versus the one before it. -/
def calculate_price_change (history : List PricePoint) : ℚ :=
  if history.length < 2 then 0
  else
    match history.reverse with
    | a :: b :: _ => (a.price - b.price) / b.price
    | _ => 0

/-- Source `_calculate_volume_change` (lines 215-236): last volume over the average
of all earlier volumes (`history[:-1]`); `0` when fewer than 3 points or when
the average is zero. -/
def calculate_volume_change (history : List PricePoint) : ℚ :=
  if history.length < 3 then 0
  else
    let avg_volume :=
      ((history.dropLast.map (fun p => p.volume)).sum) /
        ((history.length - 1 : ℕ) : ℚ)
    let current_volume := (history.getLastD ⟨0, 0⟩).volume
    if avg_volume = 0 then 0 else current_volume / avg_volume

/-- Source `_analyze_orderbook` (lines 238-265) applied to the fetched book's bid and
ask volume columns: buy dominance `bid_volume / (bid_volume + ask_volume)`,
`0.5` when the book is empty. -/
def analyze_orderbook (bids asks : List ℚ) : ℚ :=
  let bid_volume := bids.sum
  let ask_volume := asks.sum
  let total_volume := bid_volume + ask_volume
  if total_volume = 0 then 1/2 else bid_volume / total_volume

/-- Source `_calculate_confidence` (lines 267-288). -/
def calculate_confidence (price_change volume_change orderbook_imbalance : ℚ) :
    ℚ :=
  let price_score := min (price_change / (10/100)) 1
  let volume_score := min (volume_change / 5) 1
  let orderbook_score := orderbook_imbalance
  price_score * (40/100) + volume_score * (35/100) + orderbook_score * (25/100)

/-- Source `_validate_pump_signal` (lines 290-326); `recent_pumps_count` abstracts
the count of pumps for this symbol in the trailing 30 minutes,
`active_pumps` the count of the trailing 10 minutes (`_get_active_pump_count`),
and `max_pumps` the strategy's `max_pump_pairs` (default 5). -/
def validate_pump_signal (recent_pumps_count active_pumps max_pumps : ℕ)
    (s : PumpSignal) : Bool :=
  decide (s.confidence ≥ 6/10) &&
  decide (recent_pumps_count < 3) &&
  decide (active_pumps < max_pumps) &&
  decide (s.price_change_percent < 50)

/-- Source `detect_pump` (lines 100-174), after the history update: the three
inclusive threshold gates, then signal construction and validation.  The last
history point is the freshly appended current sample, so `current_price` is
its price and `trigger_price` is `history[-2]`. -/
def detect_pump (symbol : String) (history : List PricePoint)
    (bids asks : List ℚ) (recent_pumps_count active_pumps max_pumps : ℕ)
    (now : ℤ) : Option PumpSignal :=
  if history.length < 3 then none
  else
    let price_change := calculate_price_change history
    if price_change < price_threshold then none
    else
      let volume_change := calculate_volume_change history
      if volume_change < volume_multiplier then none
      else
        let orderbook_imbalance := analyze_orderbook bids asks
        if orderbook_imbalance < orderbook_threshold then none
        else
          let confidence :=
            calculate_confidence price_change volume_change orderbook_imbalance
          let trigger_price := match history.reverse with
            | _ :: b :: _ => b.price
            | _ => 0
          let s0 : PumpSignal :=
            { symbol := symbol
              trigger_price := trigger_price
              current_price := (history.getLastD ⟨0, 0⟩).price
              price_change_percent := price_change * 100
              volume_change := volume_change
              order_book_imbalance := orderbook_imbalance
              confidence := confidence
              timestamp := now }
          some { s0 with is_valid :=
            validate_pump_signal recent_pumps_count active_pumps max_pumps s0 }

end PumpDetector

/-! ## Concrete inputs used by witnesses and counterexamples -/

/-- A market snapshot at price 100 with benign indicators. -/
def mdW : MarketData :=
  { symbol := "BTC/USDT"
    current_price := 100
    price_change_24h := some 2
    rsi_5m := some 55
    volume_ratio := some (5/4) }

/-- A `json.loads` oracle that always fails to decode. -/
def jlNone : List Char → Option JsonDict := fun _ => none

/-- The two-character response consisting of one brace pair. -/
def respW : List Char := [DeepSeekAnalyzer.lbrace, DeepSeekAnalyzer.rbrace]

/-- A bullish analysis whose suggested levels coincide with the configured
defaults at entry 100 (stop 97, target 106). -/
def anW : MarketAnalysis :=
  { symbol := "BTC/USDT"
    direction := "bullish"
    confidence := 8/10
    entry_price := 100
    target_price := 106
    stop_loss := 97
    position_size := 15/100
    reasoning := "ok"
    risk_score := 4
    timeframe := "1h"
    timestamp := 0 }

/-- The signal `generate_signal` builds from `anW` over `mdW` at time 0. -/
def sigW : TradingSignal :=
  { symbol := "BTC/USDT"
    direction := "buy"
    signal_type := "long"
    strength := 8/10
    price := 100
    quantity := 15/100
    stop_loss := 97
    take_profit := 106
    confidence := 8/10
    analysis := anW
    reasoning := "ok"
    timestamp := 0
    is_valid := true }

/-- Like `anW` but with a distant suggested stop (risk 50 at entry 100), so
the risk/reward ratio 6/50 falls below the 1.5 minimum. -/
def anW2 : MarketAnalysis := { anW with stop_loss := 50 }

/-- A long signal at entry 100 (stop 97, take-profit 106) used to probe the
validity checklist. -/
def s08 : TradingSignal := sigW

/-- Market data whose volume ratio is exactly 0.8. -/
def md08 : MarketData := { mdW with volume_ratio := some (8/10) }

/-- A tiny long position: quantity 0.001 at price 100, full confidence. -/
def sC1 : TradingSignal :=
  { sigW with
    quantity := 1/1000
    strength := 1
    confidence := 1 }

/-- Performance metrics with 50 trades, even win rate and symmetric win/loss
sizes, so the raw Kelly fraction is 0. -/
def mK : PerfMetrics :=
  { total_trades := some 50
    win_rate := some (1/2)
    avg_win := some 50
    avg_loss := some (-50) }

/-- A half-confidence signal at price 100 for the Kelly refiner. -/
def sK : TradingSignal := { sigW with confidence := 1/2 }

/-- Price/volume history: flat at 100 then a jump to 103 with volume 30
against a trailing average of 10 — exactly the 3% and 3× thresholds. -/
def histP : List PricePoint := [⟨100, 10⟩, ⟨100, 10⟩, ⟨103, 30⟩]

/-- Same history with the final price one tick lower (2.9%, below threshold). -/
def histPLow : List PricePoint := [⟨100, 10⟩, ⟨100, 10⟩, ⟨1029/10, 30⟩]

/-- Same history with the final volume one unit lower (2.9×, below threshold). -/
def histVLow : List PricePoint := [⟨100, 10⟩, ⟨100, 10⟩, ⟨103, 29⟩]

/-- Order-book bid volumes summing to 13 against asks summing to 7: buy
dominance exactly 65%. -/
def bidsP : List ℚ := [13]

/-- Ask-side volumes for `bidsP`. -/
def asksP : List ℚ := [7]

/-- The pump signal `detect_pump` produces from `histP`/`bidsP`/`asksP`:
confidence 0.3·0.4 + 0.6·0.35 + 0.65·0.25 = 0.4925, below the 0.6 validation
minimum, hence `is_valid = false`. -/
def pumpW : PumpSignal :=
  { symbol := "BTC/USDT"
    trigger_price := 100
    current_price := 103
    price_change_percent := 3
    volume_change := 3
    order_book_imbalance := 13/20
    confidence := 197/400
    timestamp := 0
    is_valid := false }

namespace DeepSeekAnalyzer

theorem clampAnalysis_confidence (a : MarketAnalysis) :
    0 ≤ (clampAnalysis a).confidence ∧ (clampAnalysis a).confidence ≤ 1 := by
  simp only [clampAnalysis]
  split_ifs with h1 h2 h3 <;> simp_all <;> norm_num

theorem clampAnalysis_direction (a : MarketAnalysis) :
    (clampAnalysis a).direction = "bullish" ∨ (clampAnalysis a).direction = "bearish" ∨
      (clampAnalysis a).direction = "neutral" := by
  simp only [clampAnalysis]
  split_ifs with h1 h2 h3 <;> simp_all

theorem clampAnalysis_risk (a : MarketAnalysis) :
    1 ≤ (clampAnalysis a).risk_score ∧ (clampAnalysis a).risk_score ≤ 10 := by
  simp only [clampAnalysis]
  split_ifs with h1 h2 h3 <;> simp_all

theorem parse_response_cases (jl : List Char → Option JsonDict) (r : List Char)
    (md : MarketData) (now : ℤ) :
    parse_response jl r md now = create_neutral_analysis md now ∨
      ∃ a, parse_response jl r md now = clampAnalysis a := by
  unfold parse_response
  rcases hE : extractJson (stripMarkdown r) with _ | js
  · left; rfl
  · rcases hJ : jl js with _ | d
    · simp only [hJ]
      left; trivial
    · rcases hF : extractFields md now d with _ | a
      · simp only [hJ, hF]
        left; trivial
      · simp only [hJ, hF]
        right; exact ⟨a, rfl⟩

end DeepSeekAnalyzer

/-- C2: for every response text (including empty, non-JSON or malformed JSON
input, modelled by quantifying over every behaviour of the external
`json.loads` oracle and of the Python field conversions), `_parse_response`
returns a `MarketAnalysis` whose confidence lies in `[0, 1]`, whose risk score
lies in `[1, 10]` and whose direction is one of `bullish`, `bearish`,
`neutral`; the embedded parser is a total function, every exception path of
the source landing in one of the neutral-fallback branches. -/
theorem parser_totality (jl : List Char → Option JsonDict) (response : List Char)
    (md : MarketData) (now : ℤ) :
    0 ≤ (DeepSeekAnalyzer.parse_response jl response md now).confidence ∧
    (DeepSeekAnalyzer.parse_response jl response md now).confidence ≤ 1 ∧
    1 ≤ (DeepSeekAnalyzer.parse_response jl response md now).risk_score ∧
    (DeepSeekAnalyzer.parse_response jl response md now).risk_score ≤ 10 ∧
    ((DeepSeekAnalyzer.parse_response jl response md now).direction = "bullish" ∨
     (DeepSeekAnalyzer.parse_response jl response md now).direction = "bearish" ∨
     (DeepSeekAnalyzer.parse_response jl response md now).direction = "neutral") := by
  rcases DeepSeekAnalyzer.parse_response_cases jl response md now with h | ⟨a, h⟩ <;>
    rw [h]
  · refine ⟨by norm_num [DeepSeekAnalyzer.create_neutral_analysis],
      by norm_num [DeepSeekAnalyzer.create_neutral_analysis],
      by norm_num [DeepSeekAnalyzer.create_neutral_analysis],
      by norm_num [DeepSeekAnalyzer.create_neutral_analysis], ?_⟩
    right; right
    rfl
  · obtain ⟨h1, h2⟩ := DeepSeekAnalyzer.clampAnalysis_confidence a
    obtain ⟨h3, h4⟩ := DeepSeekAnalyzer.clampAnalysis_risk a
    exact ⟨h1, h2, h3, h4, DeepSeekAnalyzer.clampAnalysis_direction a⟩

/-- C7: the neutral fallback for a snapshot at current price `p` is exactly
direction `neutral`, confidence 0.1, entry = target = `p`, stop = `p × 0.97`,
position size 0, risk score 10 and `is_valid = false`; `analyze_market`
returns it whenever the upstream call returned nothing or timed out
(`callResult = none`), and `_parse_response` returns it whenever the JSON
payload cannot be located or decoded or the key extraction fails. -/
theorem neutral_fallback_content (md : MarketData) (now : ℤ)
    (jl : List Char → Option JsonDict) (response : List Char) :
    (DeepSeekAnalyzer.create_neutral_analysis md now).direction = "neutral" ∧
    (DeepSeekAnalyzer.create_neutral_analysis md now).confidence = 1/10 ∧
    (DeepSeekAnalyzer.create_neutral_analysis md now).entry_price = md.current_price ∧
    (DeepSeekAnalyzer.create_neutral_analysis md now).target_price = md.current_price ∧
    (DeepSeekAnalyzer.create_neutral_analysis md now).stop_loss =
      md.current_price * (97/100) ∧
    (DeepSeekAnalyzer.create_neutral_analysis md now).position_size = 0 ∧
    (DeepSeekAnalyzer.create_neutral_analysis md now).risk_score = 10 ∧
    (DeepSeekAnalyzer.create_neutral_analysis md now).is_valid = false ∧
    DeepSeekAnalyzer.analyze_market jl none md now =
      DeepSeekAnalyzer.create_neutral_analysis md now ∧
    (DeepSeekAnalyzer.extractJson (DeepSeekAnalyzer.stripMarkdown response) = none →
      DeepSeekAnalyzer.parse_response jl response md now =
        DeepSeekAnalyzer.create_neutral_analysis md now) ∧
    (∀ js, DeepSeekAnalyzer.extractJson (DeepSeekAnalyzer.stripMarkdown response) =
        some js → jl js = none →
      DeepSeekAnalyzer.parse_response jl response md now =
        DeepSeekAnalyzer.create_neutral_analysis md now) ∧
    (∀ js d, DeepSeekAnalyzer.extractJson (DeepSeekAnalyzer.stripMarkdown response) =
        some js → jl js = some d → DeepSeekAnalyzer.extractFields md now d = none →
      DeepSeekAnalyzer.parse_response jl response md now =
        DeepSeekAnalyzer.create_neutral_analysis md now) := by
  refine ⟨rfl, rfl, rfl, rfl, rfl, rfl, rfl, rfl, rfl, ?_, ?_, ?_⟩
  · intro hE
    unfold DeepSeekAnalyzer.parse_response
    simp only [hE]
  · intro js hE hJ
    unfold DeepSeekAnalyzer.parse_response
    simp only [hE, hJ]
  · intro js d hE hJ hF
    unfold DeepSeekAnalyzer.parse_response
    simp only [hE, hJ, hF]

/-- C7 witness: at the concrete snapshot `mdW`, a response consisting of one
brace pair and a decode oracle that always fails, the parser produces the
neutral fallback. -/
theorem neutral_fallback_content_witness :
    DeepSeekAnalyzer.parse_response jlNone respW mdW 0 =
      DeepSeekAnalyzer.create_neutral_analysis mdW 0 :=
  (neutral_fallback_content mdW 0 jlNone respW).2.2.2.2.2.2.2.2.2.2.1
    [DeepSeekAnalyzer.lbrace, DeepSeekAnalyzer.rbrace]
    (by norm_num +decide [DeepSeekAnalyzer.stripMarkdown, DeepSeekAnalyzer.pyStrip,
      DeepSeekAnalyzer.extractJson, DeepSeekAnalyzer.rfindIdx, DeepSeekAnalyzer.fence,
      DeepSeekAnalyzer.fenceJson, DeepSeekAnalyzer.lbrace, DeepSeekAnalyzer.rbrace, respW])
    rfl

namespace SignalGenerator

theorem generate_signal_some_fields (hist : List TradingSignal)
    (a : MarketAnalysis) (md : MarketData) (now : ℤ) (s : TradingSignal)
    (h : (generate_signal hist (some a) md now).1 = some s) :
    s.signal_type = (if a.direction = "bullish" then "long" else "short") ∧
    s.price = md.current_price ∧
    s.analysis = a ∧
    s.quantity = a.position_size ∧
    s.stop_loss = calculate_stop_loss md.current_price
      (if a.direction = "bullish" then "long" else "short") a.stop_loss ∧
    s.take_profit = calculate_take_profit md.current_price
      (if a.direction = "bullish" then "long" else "short") a.target_price := by
  simp only [generate_signal] at h
  split_ifs at h
  all_goals
    first
      | exact Option.noConfusion h
      | (simp only [Option.some.injEq] at h
         subst h
         simp [*])

end SignalGenerator

/-- C5: for every signal the builder returns, when the recommendation's
suggested stop and target are positive, a long signal's stop-loss is
`min(suggested, entry×(1−default_sl_pct))` and its take-profit is
`max(suggested, entry×(1+default_tp_pct))`; for a short signal the
inequalities are mirrored. -/
theorem stop_take_profit_combination (hist : List TradingSignal)
    (a : MarketAnalysis) (md : MarketData) (now : ℤ) (s : TradingSignal)
    (h : (SignalGenerator.generate_signal hist (some a) md now).1 = some s) :
    (s.signal_type = "long" → 0 < a.stop_loss →
      s.stop_loss = min a.stop_loss
        (md.current_price * (1 - BotConfig.DEFAULT_STOP_LOSS_PERCENT))) ∧
    (s.signal_type = "long" → 0 < a.target_price →
      s.take_profit = max a.target_price
        (md.current_price * (1 + BotConfig.DEFAULT_TAKE_PROFIT_PERCENT))) ∧
    (s.signal_type = "short" → 0 < a.stop_loss →
      s.stop_loss = max a.stop_loss
        (md.current_price * (1 + BotConfig.DEFAULT_STOP_LOSS_PERCENT))) ∧
    (s.signal_type = "short" → 0 < a.target_price →
      s.take_profit = min a.target_price
        (md.current_price * (1 - BotConfig.DEFAULT_TAKE_PROFIT_PERCENT))) := by
  obtain ⟨hty, -, -, -, hsl, htp⟩ :=
    SignalGenerator.generate_signal_some_fields hist a md now s h
  by_cases hd : a.direction = "bullish" <;>
    simp only [hd, if_true, if_false, if_pos, if_neg, not_false_iff] at hty hsl htp <;>
    rw [hty] at *
  · refine ⟨fun _ hpos => ?_, fun _ hpos => ?_, fun hc => absurd hc (by simp), 
      fun hc => absurd hc (by simp)⟩
    · rw [hsl]; simp [SignalGenerator.calculate_stop_loss, hpos]
    · rw [htp]; simp [SignalGenerator.calculate_take_profit, hpos]
  · refine ⟨fun hc => absurd hc (by simp), fun hc => absurd hc (by simp),
      fun _ hpos => ?_, fun _ hpos => ?_⟩
    · rw [hsl]; simp [SignalGenerator.calculate_stop_loss, hpos]
    · rw [htp]; simp [SignalGenerator.calculate_take_profit, hpos]

/-- C5 witness: with recommendation `anW` (suggested stop 97, target 106,
both positive) over snapshot `mdW` at entry 100, the builder produces `sigW`,
whose stop-loss is `min(97, 97) = 97` and take-profit `max(106, 106) = 106`. -/
theorem stop_take_profit_combination_witness :
    sigW.stop_loss = min anW.stop_loss
      (mdW.current_price * (1 - BotConfig.DEFAULT_STOP_LOSS_PERCENT)) ∧
    sigW.take_profit = max anW.target_price
      (mdW.current_price * (1 + BotConfig.DEFAULT_TAKE_PROFIT_PERCENT)) := by
  have h := stop_take_profit_combination [] anW mdW 0 sigW
    (by norm_num +decide [SignalGenerator.generate_signal,
      SignalGenerator.calculate_stop_loss, SignalGenerator.calculate_take_profit,
      SignalGenerator.calculate_risk_reward, SignalGenerator.validate_signal,
      SignalGenerator.get_recent_signals, anW, mdW, sigW, BotConfig.MIN_CONFIDENCE,
      BotConfig.MIN_RISK_REWARD, BotConfig.DEFAULT_STOP_LOSS_PERCENT,
      BotConfig.DEFAULT_TAKE_PROFIT_PERCENT, BotConfig.RSI_OVERBOUGHT,
      BotConfig.RSI_OVERSOLD, BotConfig.MAX_TRADES_PER_HOUR])
  exact ⟨h.1 (by norm_num [sigW]) (by norm_num [anW]),
    h.2.1 (by norm_num [sigW]) (by norm_num [anW])⟩

/-- C6: whenever the risk/reward ratio the builder computes from its final
stop/take-profit levels is below `MIN_RISK_REWARD_RATIO`, `generate_signal`
returns nothing; a non-positive risk distance makes the computed ratio `0`
(hence also below the 1.5 minimum); at the claim's concrete levels entry 100,
stop 98, target 101 the computed ratio is `1/2 < 1.5`. -/
theorem risk_reward_rejection :
    (∀ (hist : List TradingSignal) (a : MarketAnalysis) (md : MarketData) (now : ℤ),
      SignalGenerator.calculate_risk_reward md.current_price
        (SignalGenerator.calculate_stop_loss md.current_price
          (if a.direction = "bullish" then "long" else "short") a.stop_loss)
        (SignalGenerator.calculate_take_profit md.current_price
          (if a.direction = "bullish" then "long" else "short") a.target_price)
        (if a.direction = "bullish" then "long" else "short") <
          BotConfig.MIN_RISK_REWARD →
      (SignalGenerator.generate_signal hist (some a) md now).1 = none) ∧
    (∀ (entry stop_loss take_profit : ℚ) (signal_type : String),
      (if signal_type = "long" then entry - stop_loss else stop_loss - entry) ≤ 0 →
      SignalGenerator.calculate_risk_reward entry stop_loss take_profit
        signal_type = 0) ∧
    SignalGenerator.calculate_risk_reward 100 98 101 ("long") = 1/2 ∧
    SignalGenerator.calculate_risk_reward 100 98 101 ("long") <
      BotConfig.MIN_RISK_REWARD := by
  refine ⟨?_, ?_, ?_, ?_⟩
  · intro hist a md now h
    simp only [SignalGenerator.generate_signal]
    split_ifs <;> rfl
  · intro entry stop_loss take_profit signal_type h
    simp [SignalGenerator.calculate_risk_reward, h]
  · norm_num +decide [SignalGenerator.calculate_risk_reward]
  · norm_num +decide [SignalGenerator.calculate_risk_reward, BotConfig.MIN_RISK_REWARD]

/-- C6 witness: the recommendation `anW2` (suggested stop 50 at entry 100)
yields computed levels with ratio `6/50 < 1.5`, so the builder returns
nothing. -/
theorem risk_reward_rejection_witness :
    (SignalGenerator.generate_signal [] (some anW2) mdW 0).1 = none :=
  risk_reward_rejection.1 [] anW2 mdW 0
    (by norm_num +decide [SignalGenerator.calculate_risk_reward,
      SignalGenerator.calculate_stop_loss, SignalGenerator.calculate_take_profit,
      anW2, anW, mdW, BotConfig.MIN_RISK_REWARD, BotConfig.DEFAULT_STOP_LOSS_PERCENT,
      BotConfig.DEFAULT_TAKE_PROFIT_PERCENT])

/-- C8 counterexample: the long signal `s08` over `md08` passes every item of
the claim's checklist read with an inclusive volume bound (entry exactly at
market, stop below and take-profit above entry, oscillator at 55 below 70,
volume ratio exactly 0.8 which is `≥ 0.8`, no recent signals), yet the
checklist marks it invalid: the source's volume check is strict
(`volume_ratio > 0.8`), so the claim fails at volume ratio exactly 0.8. -/
theorem validity_checklist_counterexample :
    s08.signal_type = "long" ∧
    |s08.price - md08.current_price| / md08.current_price < 2/100 ∧
    s08.stop_loss < s08.price ∧
    s08.price < s08.take_profit ∧
    md08.rsi_5m.getD 50 < BotConfig.RSI_OVERBOUGHT ∧
    (8/10 : ℚ) ≤ md08.volume_ratio.getD 1 ∧
    (SignalGenerator.get_recent_signals [] s08.symbol 60 0).length <
      BotConfig.MAX_TRADES_PER_HOUR ∧
    SignalGenerator.validate_signal [] 0 s08 md08 = false := by
  refine ⟨rfl, ?_, ?_, ?_, ?_, ?_, ?_, ?_⟩ <;>
    norm_num +decide [SignalGenerator.validate_signal,
      SignalGenerator.get_recent_signals, s08, md08, sigW, mdW, anW,
      BotConfig.RSI_OVERBOUGHT, BotConfig.RSI_OVERSOLD, BotConfig.MAX_TRADES_PER_HOUR]

/-- C8 (amended): a built signal is marked valid by the checklist if and only
if every item passes, where the volume item is the source's strict bound
`volume_ratio > 0.8` (not `≥`); consequently a signal whose snapshot carries a
volume ratio of exactly 0.8 is always marked invalid, regardless of the other
checks. -/
theorem validity_checklist_amended (hist : List TradingSignal) (now : ℤ)
    (s : TradingSignal) (md : MarketData) :
    (SignalGenerator.validate_signal hist now s md = true ↔
      (|s.price - md.current_price| / md.current_price < 2/100 ∧
       (if s.signal_type = "long" then s.stop_loss < s.price
        else s.price < s.stop_loss) ∧
       (if s.signal_type = "long" then s.price < s.take_profit
        else s.take_profit < s.price) ∧
       (if s.signal_type = "long" then md.rsi_5m.getD 50 < BotConfig.RSI_OVERBOUGHT
        else BotConfig.RSI_OVERSOLD < md.rsi_5m.getD 50) ∧
       8/10 < md.volume_ratio.getD 1 ∧
       (SignalGenerator.get_recent_signals hist s.symbol 60 now).length <
         BotConfig.MAX_TRADES_PER_HOUR)) ∧
    (md.volume_ratio = some (8/10) →
      SignalGenerator.validate_signal hist now s md = false) := by
  constructor
  · simp only [SignalGenerator.validate_signal, Bool.and_eq_true, decide_eq_true_eq]
    by_cases hty : s.signal_type = "long" <;> simp [hty] <;> tauto
  · intro hv
    simp [SignalGenerator.validate_signal, hv]

/-- C8 witness: with the volume ratio pinned at exactly 0.8 the checklist
rejects the concrete signal `s08`. -/
theorem validity_checklist_amended_witness :
    SignalGenerator.validate_signal [] 0 s08 md08 = false :=
  (validity_checklist_amended [] 0 s08 md08).2 (by norm_num [md08, mdW])

/-- C10 (implicit): `generate_signal` appends a signal to `signal_history`
only when that signal's validity checklist passed — the new history is either
unchanged or the old history extended by exactly the returned, valid signal;
hence a history containing only valid signals stays that way, and every
signal the hourly frequency check can count (an element of
`_get_recent_signals` over the new history) is either a previously recorded
one or the just-returned valid one — checklist-rejected signals never
contribute to throttling. -/
theorem history_only_valid_signals (hist : List TradingSignal)
    (aOpt : Option MarketAnalysis) (md : MarketData) (now : ℤ) :
    ((SignalGenerator.generate_signal hist aOpt md now).2 = hist ∨
      ∃ s, (SignalGenerator.generate_signal hist aOpt md now).1 = some s ∧
        s.is_valid = true ∧
        (SignalGenerator.generate_signal hist aOpt md now).2 = hist ++ [s]) ∧
    ((∀ t ∈ hist, t.is_valid = true) →
      ∀ t ∈ (SignalGenerator.generate_signal hist aOpt md now).2,
        t.is_valid = true) ∧
    (∀ (sym : String) (minutes : ℤ) (t : TradingSignal),
      t ∈ SignalGenerator.get_recent_signals
        (SignalGenerator.generate_signal hist aOpt md now).2 sym minutes now →
      t ∈ hist ∨
        ((SignalGenerator.generate_signal hist aOpt md now).1 = some t ∧
          t.is_valid = true)) := by
  have key : (SignalGenerator.generate_signal hist aOpt md now).2 = hist ∨
      ∃ s, (SignalGenerator.generate_signal hist aOpt md now).1 = some s ∧
        s.is_valid = true ∧
        (SignalGenerator.generate_signal hist aOpt md now).2 = hist ++ [s] := by
    rcases aOpt with _ | a
    · left; rfl
    · simp only [SignalGenerator.generate_signal]
      split_ifs
      all_goals
        first
          | (left; rfl)
          | (right; exact ⟨_, rfl, by assumption, rfl⟩)
  refine ⟨key, ?_, ?_⟩
  · intro hall t ht
    rcases key with hk | ⟨s, -, hsv, hk⟩
    · rw [hk] at ht
      exact hall t ht
    · rw [hk] at ht
      rcases List.mem_append.mp ht with h' | h'
      · exact hall t h'
      · rw [List.mem_singleton.mp h']
        exact hsv
  · intro sym minutes t ht
    have ht2 : t ∈ (SignalGenerator.generate_signal hist aOpt md now).2 :=
      List.mem_of_mem_filter ht
    rcases key with hk | ⟨s, hs1, hsv, hk⟩
    · rw [hk] at ht2
      exact Or.inl ht2
    · rw [hk] at ht2
      rcases List.mem_append.mp ht2 with h' | h'
      · exact Or.inl h'
      · rw [List.mem_singleton.mp h']
        exact Or.inr ⟨hs1, hsv⟩

/-- C10 witness: starting from the empty history, generating from `anW` over
`mdW` returns the valid signal `sigW`, and `sigW` — found by the recent-signal
filter on the new history — is accounted for by the just-returned-valid case. -/
theorem history_only_valid_signals_witness :
    sigW ∈ ([] : List TradingSignal) ∨
      ((SignalGenerator.generate_signal [] (some anW) mdW 0).1 = some sigW ∧
        sigW.is_valid = true) :=
  (history_only_valid_signals [] (some anW) mdW 0).2.2 ("BTC/USDT") 60 sigW
    (by norm_num +decide [SignalGenerator.generate_signal,
      SignalGenerator.calculate_stop_loss, SignalGenerator.calculate_take_profit,
      SignalGenerator.calculate_risk_reward, SignalGenerator.validate_signal,
      SignalGenerator.get_recent_signals, anW, mdW, sigW, BotConfig.MIN_CONFIDENCE,
      BotConfig.MIN_RISK_REWARD, BotConfig.DEFAULT_STOP_LOSS_PERCENT,
      BotConfig.DEFAULT_TAKE_PROFIT_PERCENT, BotConfig.RSI_OVERBOUGHT,
      BotConfig.RSI_OVERSOLD, BotConfig.MAX_TRADES_PER_HOUR])

namespace RiskManager

open BotConfig

theorem check_portfolio_exposure_quantity (s : TradingSignal)
    (hp : 0 < s.price) :
    (check_portfolio_exposure s).quantity ≤ s.quantity := by
  simp only [check_portfolio_exposure, get_current_exposure, get_current_positions,
    get_portfolio_value, List.map_nil, List.sum_nil, zero_add]
  norm_num
  split_ifs with h1
  all_goals
    first
      | (simp only
         rw [div_le_iff₀ hp]
         rw [lt_div_iff₀ (by norm_num : (0:ℚ) < 10000)] at h1
         linarith)
      | simp

theorem check_drawdown_limit_quantity (daily_pnl : List ℚ) (s : TradingSignal)
    (hq : 0 ≤ s.quantity) :
    (check_drawdown_limit daily_pnl s).quantity ≤ s.quantity := by
  simp only [check_drawdown_limit]
  split_ifs <;> simp <;> linarith

theorem check_correlation_limits_quantity (s : TradingSignal) :
    (check_correlation_limits s).quantity = s.quantity := by
  simp [check_correlation_limits, get_current_positions]

theorem adjust_for_volatility_quantity (s : TradingSignal) (md : MarketData)
    (hq : 0 ≤ s.quantity) :
    (adjust_for_volatility s md).quantity ≤ s.quantity := by
  simp only [adjust_for_volatility]
  split_ifs with h1
  · simp only
    have hd : (0:ℚ) < |md.price_change_24h.getD 0| / 100 := by linarith
    have : (5/100 : ℚ) / (|md.price_change_24h.getD 0| / 100) ≤ 1 := by
      rw [div_le_one hd]
      linarith
    calc s.quantity * ((5/100) / (|md.price_change_24h.getD 0| / 100)) ≤
          s.quantity * 1 := by
            exact mul_le_mul_of_nonneg_left this hq
      _ = s.quantity := mul_one _
  · exact le_refl _

theorem check_sufficient_balance_quantity (s : TradingSignal)
    (hp : 0 < s.price) :
    (check_sufficient_balance s).quantity ≤ s.quantity := by
  simp only [check_sufficient_balance, get_free_balance, MIN_BALANCE]
  norm_num
  split_ifs with h1
  · simp only
    rw [div_le_iff₀ hp]
    linarith
  · exact le_refl _

theorem check_trade_frequency_quantity (recent_trades_count : ℕ)
    (s : TradingSignal) :
    (check_trade_frequency recent_trades_count s).quantity = s.quantity := by
  simp only [check_trade_frequency]
  split_ifs <;> rfl

end RiskManager

namespace RiskManager

theorem check_portfolio_exposure_validity (s : TradingSignal)
    (h : (check_portfolio_exposure s).is_valid = true) : s.is_valid = true := by
  simp only [check_portfolio_exposure] at h
  split_ifs at h <;> simp_all

theorem calculate_position_size_validity (daily_pnl : List ℚ) (s : TradingSignal)
    (md : MarketData) :
    (calculate_position_size daily_pnl s md).is_valid = s.is_valid := rfl

theorem check_drawdown_limit_validity (daily_pnl : List ℚ) (s : TradingSignal)
    (h : (check_drawdown_limit daily_pnl s).is_valid = true) : s.is_valid = true := by
  simp only [check_drawdown_limit] at h
  split_ifs at h <;> simp_all

theorem check_correlation_limits_validity (s : TradingSignal) :
    (check_correlation_limits s).is_valid = s.is_valid := by
  simp [check_correlation_limits, get_current_positions]

theorem adjust_for_volatility_validity (s : TradingSignal) (md : MarketData) :
    (adjust_for_volatility s md).is_valid = s.is_valid := by
  simp only [adjust_for_volatility]
  split_ifs <;> rfl

theorem check_sufficient_balance_validity (s : TradingSignal)
    (h : (check_sufficient_balance s).is_valid = true) : s.is_valid = true := by
  simp only [check_sufficient_balance] at h
  split_ifs at h <;> simp_all

theorem check_trade_frequency_validity (recent_trades_count : ℕ) (s : TradingSignal)
    (h : (check_trade_frequency recent_trades_count s).is_valid = true) :
    s.is_valid = true := by
  simp only [check_trade_frequency] at h
  split_ifs at h <;> simp_all

theorem validate_signal_validity (daily_pnl : List ℚ) (recent_trades_count : ℕ)
    (s : TradingSignal) (md : MarketData)
    (h : (validate_signal daily_pnl recent_trades_count s md).is_valid = true) :
    s.is_valid = true := by
  simp only [validate_signal] at h
  split_ifs at h <;> assumption

end RiskManager

/-- C1 counterexample: within `validate_signal`'s pipeline, the tiny signal
`sC1` (quantity 0.001 at price 100) passes stage 1 unchanged, and stage 2 —
the position-sizing stage — outputs quantity 15 (= 10000·15% / 100), strictly
greater than its input quantity: the position-sizing stage recomputes the
quantity from portfolio value, confidence, volatility and performance,
ignoring (and here increasing) the incoming quantity, so the claim that every
stage's output quantity is ≤ its input quantity is false. -/
theorem risk_gate_monotonicity_counterexample :
    RiskManager.check_portfolio_exposure sC1 = sC1 ∧
    (RiskManager.calculate_position_size []
      (RiskManager.check_portfolio_exposure sC1) mdW).quantity = 15 ∧
    (RiskManager.check_portfolio_exposure sC1).quantity <
      (RiskManager.calculate_position_size []
        (RiskManager.check_portfolio_exposure sC1) mdW).quantity := by
  have h1 : RiskManager.check_portfolio_exposure sC1 = sC1 := by
    norm_num +decide [RiskManager.check_portfolio_exposure,
      RiskManager.get_current_exposure, RiskManager.get_current_positions,
      RiskManager.get_portfolio_value, sC1, sigW, anW]
  have h2 : (RiskManager.calculate_position_size [] sC1 mdW).quantity = 15 := by
    norm_num +decide [RiskManager.calculate_position_size,
      RiskManager.calculate_volatility, RiskManager.get_performance_multiplier,
      RiskManager.get_portfolio_value, RiskManager.get_free_balance,
      BotConfig.MAX_POSITION_SIZE_PERCENT, sC1, sigW, anW, mdW]
  refine ⟨h1, by rw [h1]; exact h2, ?_⟩
  rw [h1, h2]
  norm_num [sC1, sigW]

/-- C1 (amended): in the Risk Gate every stage except position sizing is
quantity-monotone — for a signal with nonnegative quantity and positive
price, the exposure, drawdown, correlation, volatility, balance and frequency
stages output a quantity ≤ their input quantity — while the position-sizing
stage replaces the quantity by a value recomputed from portfolio state that
can exceed the input; validity is monotone in every stage and in the whole
pipeline: no stage ever turns `is_valid` from false back to true. -/
theorem risk_gate_monotonicity_amended (daily_pnl : List ℚ)
    (recent_trades_count : ℕ) (s : TradingSignal) (md : MarketData)
    (hq : 0 ≤ s.quantity) (hp : 0 < s.price) :
    (RiskManager.check_portfolio_exposure s).quantity ≤ s.quantity ∧
    (RiskManager.check_drawdown_limit daily_pnl s).quantity ≤ s.quantity ∧
    (RiskManager.check_correlation_limits s).quantity = s.quantity ∧
    (RiskManager.adjust_for_volatility s md).quantity ≤ s.quantity ∧
    (RiskManager.check_sufficient_balance s).quantity ≤ s.quantity ∧
    (RiskManager.check_trade_frequency recent_trades_count s).quantity =
      s.quantity ∧
    ((RiskManager.check_portfolio_exposure s).is_valid = true →
      s.is_valid = true) ∧
    (RiskManager.calculate_position_size daily_pnl s md).is_valid = s.is_valid ∧
    ((RiskManager.check_drawdown_limit daily_pnl s).is_valid = true →
      s.is_valid = true) ∧
    (RiskManager.check_correlation_limits s).is_valid = s.is_valid ∧
    (RiskManager.adjust_for_volatility s md).is_valid = s.is_valid ∧
    ((RiskManager.check_sufficient_balance s).is_valid = true →
      s.is_valid = true) ∧
    ((RiskManager.check_trade_frequency recent_trades_count s).is_valid = true →
      s.is_valid = true) ∧
    ((RiskManager.validate_signal daily_pnl recent_trades_count s md).is_valid =
        true → s.is_valid = true) :=
  ⟨RiskManager.check_portfolio_exposure_quantity s hp,
   RiskManager.check_drawdown_limit_quantity daily_pnl s hq,
   RiskManager.check_correlation_limits_quantity s,
   RiskManager.adjust_for_volatility_quantity s md hq,
   RiskManager.check_sufficient_balance_quantity s hp,
   RiskManager.check_trade_frequency_quantity recent_trades_count s,
   RiskManager.check_portfolio_exposure_validity s,
   RiskManager.calculate_position_size_validity daily_pnl s md,
   RiskManager.check_drawdown_limit_validity daily_pnl s,
   RiskManager.check_correlation_limits_validity s,
   RiskManager.adjust_for_volatility_validity s md,
   RiskManager.check_sufficient_balance_validity s,
   RiskManager.check_trade_frequency_validity recent_trades_count s,
   RiskManager.validate_signal_validity daily_pnl recent_trades_count s md⟩

/-- C1 witness: the amended monotonicity applied to the concrete signal
`sigW` (quantity 0.15 at price 100): the volatility-adjustment stage leaves
its quantity ≤ 0.15. -/
theorem risk_gate_monotonicity_amended_witness :
    (RiskManager.adjust_for_volatility sigW mdW).quantity ≤ sigW.quantity :=
  (risk_gate_monotonicity_amended [] 0 sigW mdW (by norm_num [sigW])
    (by norm_num [sigW])).2.2.2.1

/-- C3: for every signal entering the drawdown stage, a current drawdown
(peak-to-trough of the cumulative P&L) at or above the 15% emergency
threshold invalidates the signal unconditionally; a drawdown at or above 80%
of the 10% max-drawdown threshold but below the emergency threshold halves
the quantity; at or above the max-drawdown threshold itself the signal is
invalidated; and the spec's synthetic series (P&L 1000 then −160, peak 1000
falling to 840) yields drawdown 16% ≥ 15%, invalidating any signal. -/
theorem drawdown_circuit_breaker (daily_pnl : List ℚ) (s : TradingSignal) :
    (BotConfig.EMERGENCY_STOP_DRAWDOWN ≤
        RiskManager.calculate_current_drawdown daily_pnl →
      (RiskManager.check_drawdown_limit daily_pnl s).is_valid = false) ∧
    (BotConfig.MAX_DRAWDOWN * (80/100) ≤
        RiskManager.calculate_current_drawdown daily_pnl →
      RiskManager.calculate_current_drawdown daily_pnl <
        BotConfig.EMERGENCY_STOP_DRAWDOWN →
      (RiskManager.check_drawdown_limit daily_pnl s).quantity =
        s.quantity * (1/2)) ∧
    (BotConfig.MAX_DRAWDOWN ≤ RiskManager.calculate_current_drawdown daily_pnl →
      (RiskManager.check_drawdown_limit daily_pnl s).is_valid = false) ∧
    RiskManager.calculate_current_drawdown [1000, -160] = 16/100 ∧
    (RiskManager.check_drawdown_limit [1000, -160] s).is_valid = false := by
  have hdd : RiskManager.calculate_current_drawdown [1000, -160] = 16/100 := by
    norm_num [RiskManager.calculate_current_drawdown, RiskManager.cumsum,
      RiskManager.runningMax, RiskManager.runningMaxAux, List.scanl]
  refine ⟨?_, ?_, ?_, hdd, ?_⟩
  · intro h
    simp only [RiskManager.check_drawdown_limit]
    rw [if_pos (by exact h)]
  · intro h1 h2
    simp only [RiskManager.check_drawdown_limit]
    split_ifs with ha hb
    all_goals
      first
        | exact absurd ha (not_le.mpr h2)
        | simp
  · intro h
    simp only [RiskManager.check_drawdown_limit]
    by_cases he : BotConfig.EMERGENCY_STOP_DRAWDOWN ≤
        RiskManager.calculate_current_drawdown daily_pnl
    · rw [if_pos he]
    · rw [if_neg he]
      split_ifs <;> rfl
  · simp only [RiskManager.check_drawdown_limit]
    rw [if_pos (by rw [hdd]; norm_num [BotConfig.EMERGENCY_STOP_DRAWDOWN])]

/-- C3 witness: the series 1000 then −90 has drawdown 9% — at or above 80% of
the max drawdown and below the emergency stop — so the stage halves `sigW`'s
quantity; the series 1000 then −160 (16% drawdown) invalidates `sigW`. -/
theorem drawdown_circuit_breaker_witness :
    (RiskManager.check_drawdown_limit [1000, -90] sigW).quantity =
      sigW.quantity * (1/2) ∧
    (RiskManager.check_drawdown_limit [1000, -160] sigW).is_valid = false := by
  have h9 : RiskManager.calculate_current_drawdown [1000, -90] = 9/100 := by
    norm_num [RiskManager.calculate_current_drawdown, RiskManager.cumsum,
      RiskManager.runningMax, RiskManager.runningMaxAux, List.scanl]
  exact ⟨(drawdown_circuit_breaker [1000, -90] sigW).2.1
      (by rw [h9]; norm_num [BotConfig.MAX_DRAWDOWN])
      (by rw [h9]; norm_num [BotConfig.EMERGENCY_STOP_DRAWDOWN]),
    (drawdown_circuit_breaker [1000, -160] sigW).2.2.2.2⟩

/-- C4 counterexample: with 50 historical trades, win rate 0.5 and symmetric
average win/loss, the raw Kelly fraction is 0 (outside [5%, 25%]) and clamps
to 5%; for the half-confidence signal `sK` the fraction of portfolio actually
used to compute the returned quantity — quantity × price ÷ portfolio — is
5% × 0.5 = 2.5%, strictly below the claimed 5% lower bound, so the fraction
after the multiplication by confidence does not always lie within [5%, 25%]. -/
theorem kelly_boundedness_counterexample :
    10 ≤ mK.total_trades.getD 0 ∧
    AdvancedRiskManager.kelly_percentage mK = 0 ∧
    AdvancedRiskManager.fractional_kelly mK =
      AdvancedRiskManager.min_position_size ∧
    AdvancedRiskManager.calculate_kelly_position_size sK (some mK) * sK.price /
      10000 = 1/40 ∧
    ¬ (AdvancedRiskManager.min_position_size ≤ (1/40 : ℚ)) := by
  refine ⟨by norm_num [mK], ?_, ?_, ?_, ?_⟩ <;>
    norm_num +decide [AdvancedRiskManager.calculate_kelly_position_size,
      AdvancedRiskManager.fractional_kelly, AdvancedRiskManager.kelly_percentage,
      AdvancedRiskManager.kelly_odds, AdvancedRiskManager.kelly_fraction,
      AdvancedRiskManager.min_position_size, AdvancedRiskManager.max_position_size,
      mK, sK, sigW, anW]

/-- C4 (amended): with at least 10 historical trades, the clamped fractional
Kelly value — before the multiplication by the signal's confidence — always
lies within [5%, 25%] for every win rate / average win / average loss
combination; the returned quantity equals
portfolio × (clamped fraction × confidence) ÷ price, so the fraction of
portfolio actually used is the clamped fraction times the confidence: it is
still bounded above by 25% for confidence in [0, 1], but its lower bound is
5% × confidence, which falls below 5% whenever confidence < 1. -/
theorem kelly_boundedness_amended (m : PerfMetrics) (s : TradingSignal)
    (hm : 10 ≤ m.total_trades.getD 0) :
    AdvancedRiskManager.min_position_size ≤ AdvancedRiskManager.fractional_kelly m ∧
    AdvancedRiskManager.fractional_kelly m ≤
      AdvancedRiskManager.max_position_size ∧
    AdvancedRiskManager.calculate_kelly_position_size s (some m) =
      10000 * (AdvancedRiskManager.fractional_kelly m * s.confidence) / s.price ∧
    (0 ≤ s.confidence → s.confidence ≤ 1 →
      AdvancedRiskManager.fractional_kelly m * s.confidence ≤
          AdvancedRiskManager.max_position_size ∧
        AdvancedRiskManager.min_position_size * s.confidence ≤
          AdvancedRiskManager.fractional_kelly m * s.confidence) := by
  have hlo : AdvancedRiskManager.min_position_size ≤
      AdvancedRiskManager.fractional_kelly m := le_max_left _ _
  have hhi : AdvancedRiskManager.fractional_kelly m ≤
      AdvancedRiskManager.max_position_size := by
    apply max_le
    · norm_num [AdvancedRiskManager.min_position_size,
        AdvancedRiskManager.max_position_size]
    · exact min_le_right _ _
  refine ⟨hlo, hhi, ?_, ?_⟩
  · simp only [AdvancedRiskManager.calculate_kelly_position_size]
    rw [if_neg (by omega)]
  · intro hc0 hc1
    constructor
    · calc AdvancedRiskManager.fractional_kelly m * s.confidence ≤
          AdvancedRiskManager.fractional_kelly m * 1 :=
            mul_le_mul_of_nonneg_left hc1
              (le_trans (by norm_num [AdvancedRiskManager.min_position_size]) hlo)
        _ = AdvancedRiskManager.fractional_kelly m := mul_one _
        _ ≤ AdvancedRiskManager.max_position_size := hhi
    · exact mul_le_mul_of_nonneg_right hlo hc0

/-- C4 witness: the amended bounds evaluated at the concrete metrics `mK` and
signal `sK`: the clamped fraction is at least 5% and the confidence-scaled
fraction is at most 25%. -/
theorem kelly_boundedness_amended_witness :
    AdvancedRiskManager.min_position_size ≤
      AdvancedRiskManager.fractional_kelly mK ∧
    AdvancedRiskManager.fractional_kelly mK * sK.confidence ≤
      AdvancedRiskManager.max_position_size := by
  have h := kelly_boundedness_amended mK sK (by norm_num [mK])
  exact ⟨h.1, (h.2.2.2 (by norm_num [sK, sigW]) (by norm_num [sK, sigW])).1⟩

/-- C9 counterexample: the history `histP` jumps by exactly the 3% price
threshold with volume exactly at the 3× boundary, and the order book is at
exactly the 65% buy-dominance threshold, so all three inclusive gates pass
and `detect_pump` emits the signal `pumpW` — but that signal is not valid:
its confidence is 0.3·0.4 + 0.6·0.35 + 0.65·0.25 = 0.4925 < 0.6, so the
validation step marks it `is_valid = false`, contradicting the claim that a
valid pump signal is emitted at the exact boundary. -/
theorem pump_threshold_edges_counterexample :
    PumpDetector.calculate_price_change histP = PumpDetector.price_threshold ∧
    PumpDetector.calculate_volume_change histP = PumpDetector.volume_multiplier ∧
    PumpDetector.analyze_orderbook bidsP asksP = PumpDetector.orderbook_threshold ∧
    PumpDetector.detect_pump ("BTC/USDT") histP bidsP asksP 0 0 5 0 = some pumpW ∧
    pumpW.confidence = 197/400 ∧
    pumpW.is_valid = false := by
  refine ⟨?_, ?_, ?_, ?_, rfl, rfl⟩ <;>
    norm_num +decide [PumpDetector.detect_pump, PumpDetector.calculate_price_change,
      PumpDetector.calculate_volume_change, PumpDetector.analyze_orderbook,
      PumpDetector.calculate_confidence, PumpDetector.validate_pump_signal,
      PumpDetector.price_threshold, PumpDetector.volume_multiplier,
      PumpDetector.orderbook_threshold, histP, bidsP, asksP, pumpW]

/-- C9 (amended): with at least 3 history points, a price change at or above
the 3% threshold together with a volume change at or above the 3× boundary
and buy-side imbalance at or above 65% makes `detect_pump` emit a pump signal
(the boundaries are inclusive), while a price change or a volume change below
its threshold emits none; however, at price change exactly 3% and volume
change exactly 3× the emitted signal's confidence is at most 0.58 < 0.6 for
any imbalance ≤ 1, so the validation step marks exactly-at-boundary signals
invalid rather than valid. -/
theorem pump_threshold_edges_amended :
    (∀ (sym : String) (hist : List PricePoint) (bids asks : List ℚ)
        (rc ap mp : ℕ) (now : ℤ),
      3 ≤ hist.length →
      PumpDetector.price_threshold ≤ PumpDetector.calculate_price_change hist →
      PumpDetector.volume_multiplier ≤ PumpDetector.calculate_volume_change hist →
      PumpDetector.orderbook_threshold ≤ PumpDetector.analyze_orderbook bids asks →
      ∃ s, PumpDetector.detect_pump sym hist bids asks rc ap mp now = some s) ∧
    (∀ (sym : String) (hist : List PricePoint) (bids asks : List ℚ)
        (rc ap mp : ℕ) (now : ℤ),
      PumpDetector.calculate_price_change hist < PumpDetector.price_threshold →
      PumpDetector.detect_pump sym hist bids asks rc ap mp now = none) ∧
    (∀ (sym : String) (hist : List PricePoint) (bids asks : List ℚ)
        (rc ap mp : ℕ) (now : ℤ),
      PumpDetector.calculate_volume_change hist < PumpDetector.volume_multiplier →
      PumpDetector.detect_pump sym hist bids asks rc ap mp now = none) ∧
    (∀ imb : ℚ, imb ≤ 1 →
      PumpDetector.calculate_confidence PumpDetector.price_threshold
        PumpDetector.volume_multiplier imb < 6/10) ∧
    (∀ (rc ap mp : ℕ) (s : PumpSignal), s.confidence < 6/10 →
      PumpDetector.validate_pump_signal rc ap mp s = false) := by
  refine ⟨?_, ?_, ?_, ?_, ?_⟩
  · intro sym hist bids asks rc ap mp now hlen hpc hvc hob
    simp only [PumpDetector.detect_pump]
    rw [if_neg (by omega), if_neg (not_lt.mpr hpc), if_neg (not_lt.mpr hvc),
      if_neg (not_lt.mpr hob)]
    exact ⟨_, rfl⟩
  · intro sym hist bids asks rc ap mp now hpc
    simp only [PumpDetector.detect_pump]
    split_ifs <;> rfl
  · intro sym hist bids asks rc ap mp now hvc
    simp only [PumpDetector.detect_pump]
    split_ifs <;> rfl
  · intro imb himb
    simp only [PumpDetector.calculate_confidence, PumpDetector.price_threshold,
      PumpDetector.volume_multiplier]
    norm_num
    linarith
  · intro rc ap mp s hc
    simp [PumpDetector.validate_pump_signal, not_le.mpr hc]

/-- C9 witness: `histPLow` (a 2.9% jump) and `histVLow` (a 2.9× volume
spike) are each one tick below threshold and produce no pump signal, while
the inclusive-boundary history `histP` produces one. -/
theorem pump_threshold_edges_amended_witness :
    PumpDetector.detect_pump ("BTC/USDT") histPLow bidsP asksP 0 0 5 0 = none ∧
    PumpDetector.detect_pump ("BTC/USDT") histVLow bidsP asksP 0 0 5 0 = none ∧
    (∃ s, PumpDetector.detect_pump ("BTC/USDT") histP bidsP asksP 0 0 5 0 = some s) := by
  refine ⟨pump_threshold_edges_amended.2.1 ("BTC/USDT") histPLow bidsP asksP 0 0 5 0
      (by norm_num [PumpDetector.calculate_price_change,
        PumpDetector.price_threshold, histPLow]),
    pump_threshold_edges_amended.2.2.1 ("BTC/USDT") histVLow bidsP asksP 0 0 5 0
      (by norm_num [PumpDetector.calculate_volume_change,
        PumpDetector.volume_multiplier, histVLow]),
    pump_threshold_edges_amended.1 ("BTC/USDT") histP bidsP asksP 0 0 5 0
      (by norm_num [histP])
      (by norm_num [PumpDetector.calculate_price_change,
        PumpDetector.price_threshold, histP])
      (by norm_num [PumpDetector.calculate_volume_change,
        PumpDetector.volume_multiplier, histP])
      (by norm_num [PumpDetector.analyze_orderbook,
        PumpDetector.orderbook_threshold, bidsP, asksP])⟩
